import Mathlib

/-!
Verification of the Jyotish platform calculation core.

This file gives a shallow embedding, in Lean 4, of the arithmetic core of the
repository (services/ephemeris.py, services/panchang.py, services/muhurat.py,
services/matchmaking.py, routers/muhurat.py, core/config.py) and proves or
refutes the behavioural claims about it.  Real-valued quantities (ecliptic
longitudes, scores, times) are modelled by rationals; Python `%` is modelled by
floored remainder, Python `int()` truncation by floor on the non-negative
arguments at which the code applies it, and `timedelta.days` by floor division
by the number of seconds in a day.  The external Swiss-Ephemeris primitive is
treated as an oracle: functions that consume its output are parametrised by
that output.
-/

/-- Python `a % b` for rationals (floored remainder; result has the sign of
`b`).  Mirrors the float `%` used throughout the source on exact values. -/
def pmod (a b : ℚ) : ℚ := a - b * ⌊a / b⌋

theorem pmod_eq_mul_fract (a : ℚ) {b : ℚ} (hb : 0 < b) :
    pmod a b = b * Int.fract (a / b) := by
  unfold pmod Int.fract
  field_simp

theorem pmod_nonneg (a : ℚ) {b : ℚ} (hb : 0 < b) : 0 ≤ pmod a b := by
  have h := Int.fract_nonneg (a / b)
  rw [pmod_eq_mul_fract a hb]
  positivity

theorem pmod_lt (a : ℚ) {b : ℚ} (hb : 0 < b) : pmod a b < b := by
  have h := Int.fract_lt_one (a / b)
  rw [pmod_eq_mul_fract a hb]
  calc b * Int.fract (a / b) < b * 1 := by
        exact mul_lt_mul_of_pos_left h hb
    _ = b := mul_one b

theorem pmod_eq_self {a b : ℚ} (h0 : 0 ≤ a) (h1 : a < b) : pmod a b = a := by
  have hb : 0 < b := lt_of_le_of_lt h0 h1
  have hfloor : ⌊a / b⌋ = 0 := by
    rw [Int.floor_eq_zero_iff]
    constructor
    · exact div_nonneg h0 (le_of_lt hb)
    · rw [div_lt_one hb]; exact h1
  unfold pmod
  rw [hfloor]
  ring

theorem pmod_pmod (a : ℚ) {b : ℚ} (hb : 0 < b) : pmod (pmod a b) b = pmod a b :=
  pmod_eq_self (pmod_nonneg a hb) (pmod_lt a hb)

/-! ## Ephemeris classification tables (core/config.py) -/

/-- Names of the 27 nakshatras, in table order (config.NAKSHATRAS). -/
def NAKSHATRA_NAMES : List String :=
  ["Ashwini", "Bharani", "Krittika", "Rohini", "Mrigashira", "Ardra",
   "Punarvasu", "Pushya", "Ashlesha", "Magha", "Purva Phalguni",
   "Uttara Phalguni", "Hasta", "Chitra", "Swati", "Vishakha", "Anuradha",
   "Jyeshtha", "Mula", "Purva Ashadha", "Uttara Ashadha", "Shravana",
   "Dhanishta", "Shatabhisha", "Purva Bhadrapada", "Uttara Bhadrapada",
   "Revati"]

/-- Names of the 12 rashis, in table order (config.RASHIS). -/
def RASHI_NAMES : List String :=
  ["Mesha", "Vrishabha", "Mithuna", "Karka", "Simha", "Kanya", "Tula",
   "Vrishchika", "Dhanu", "Makara", "Kumbha", "Meena"]

/-! ## Planet positions (services/ephemeris.py) -/

/-- The fields of `PlanetPosition` that carry numeric state; the name/symbol
strings are derived from the index tables. -/
structure PlanetPosition where
  longitude : ℚ
  latitude : ℚ
  speed : ℚ
  isRetrograde : Bool
  rashiIndex : ℤ
  degreeInRashi : ℚ
  nakshatraIndex : ℤ
  nakshatraPada : ℤ
  deriving DecidableEq, Repr

/-- Sign index as computed by `get_planet_position`: `int(longitude/30)+1` on
the already-normalised longitude. -/
def rashiIndexOf (l : ℚ) : ℤ := ⌊l / 30⌋ + 1

/-- Mansion index as computed by `get_planet_position`:
`int(longitude/(360/27))+1` on the already-normalised longitude. -/
def nakshatraIndexOf (l : ℚ) : ℤ := ⌊l / (360 / 27)⌋ + 1

/-- Mansion quarter: `int((longitude % (360/27)) / (360/27/4)) + 1`. -/
def nakshatraPadaOf (l : ℚ) : ℤ := ⌊pmod l (360 / 27) / (360 / 27 / 4)⌋ + 1

/-- `EphemerisService.get_planet_position`, given the raw sidereal
longitude/latitude/speed returned by the ephemeris primitive.  The longitude is
reduced modulo 360 before every classification. -/
def get_planet_position (rawLongitude latitude speed : ℚ) : PlanetPosition :=
  let longitude := pmod rawLongitude 360
  { longitude := longitude
    latitude := latitude
    speed := speed
    isRetrograde := decide (speed < 0)
    rashiIndex := rashiIndexOf longitude
    degreeInRashi := pmod longitude 30
    nakshatraIndex := nakshatraIndexOf longitude
    nakshatraPada := nakshatraPadaOf longitude }

/-- `EphemerisService.get_ketu_position`: Ketu is derived from Rahu as the
point 180 degrees opposite, with latitude and speed negated and the retrograde
flag forced true. -/
def get_ketu_position (rahu : PlanetPosition) : PlanetPosition :=
  let ketuLongitude := pmod (rahu.longitude + 180) 360
  { longitude := ketuLongitude
    latitude := -rahu.latitude
    speed := -rahu.speed
    isRetrograde := true
    rashiIndex := rashiIndexOf ketuLongitude
    degreeInRashi := pmod ketuLongitude 30
    nakshatraIndex := nakshatraIndexOf ketuLongitude
    nakshatraPada := nakshatraPadaOf ketuLongitude }

/-- Mansion classification of a raw longitude, as the code performs it
(normalise modulo 360, then integer-divide). -/
def mansionOf (rawLongitude : ℚ) : ℤ :=
  (get_planet_position rawLongitude 0 0).nakshatraIndex

/-- Sign classification of a raw longitude, as the code performs it. -/
def signOf (rawLongitude : ℚ) : ℤ :=
  (get_planet_position rawLongitude 0 0).rashiIndex

theorem mansionOf_eq (l : ℚ) : mansionOf l = nakshatraIndexOf (pmod l 360) := rfl

/-- C7: for every Rahu position, the derived Ketu body has longitude exactly
`(rahu.longitude + 180) mod 360`, negated latitude and speed, and its
retrograde flag always true. -/
theorem ketu_opposite_rahu (rahu : PlanetPosition) :
    (get_ketu_position rahu).longitude = pmod (rahu.longitude + 180) 360 ∧
    (get_ketu_position rahu).latitude = -rahu.latitude ∧
    (get_ketu_position rahu).speed = -rahu.speed ∧
    (get_ketu_position rahu).isRetrograde = true :=
  ⟨rfl, rfl, rfl, rfl⟩

theorem normalised_bounds (l : ℚ) : 0 ≤ pmod l 360 ∧ pmod l 360 < 360 :=
  ⟨pmod_nonneg l (by norm_num), pmod_lt l (by norm_num)⟩

/-- C8: mansion classification is invariant under reduction modulo 360, the
mansion index always lies in [1,27], the sign index in [1,12], and the
corresponding table lookups (index − 1 into the 27-entry and 12-entry name
tables) are always in bounds — in particular at L = 0 and for L just below
360. -/
theorem mansion_sign_classification_safe (l : ℚ) :
    mansionOf l = mansionOf (pmod l 360) ∧
    1 ≤ mansionOf l ∧ mansionOf l ≤ 27 ∧
    1 ≤ signOf l ∧ signOf l ≤ 12 ∧
    (mansionOf l - 1).toNat < NAKSHATRA_NAMES.length ∧
    (signOf l - 1).toNat < RASHI_NAMES.length := by
  have h0 : 0 ≤ pmod l 360 := pmod_nonneg l (by norm_num)
  have h1 : pmod l 360 < 360 := pmod_lt l (by norm_num)
  have hm : mansionOf l = ⌊pmod l 360 / (360 / 27)⌋ + 1 := rfl
  have hs : signOf l = ⌊pmod l 360 / 30⌋ + 1 := rfl
  have hmlo : (0 : ℤ) ≤ ⌊pmod l 360 / (360 / 27)⌋ :=
    Int.floor_nonneg.mpr (by positivity)
  have hmhi : ⌊pmod l 360 / (360 / 27)⌋ < 27 := by
    have : pmod l 360 / (360 / 27) < 27 := by
      rw [div_lt_iff₀ (by norm_num : (0:ℚ) < 360 / 27)]
      linarith
    exact_mod_cast Int.floor_lt.mpr (by exact_mod_cast this)
  have hslo : (0 : ℤ) ≤ ⌊pmod l 360 / 30⌋ :=
    Int.floor_nonneg.mpr (by positivity)
  have hshi : ⌊pmod l 360 / 30⌋ < 12 := by
    have : pmod l 360 / 30 < 12 := by
      rw [div_lt_iff₀ (by norm_num : (0:ℚ) < 30)]
      linarith
    exact_mod_cast Int.floor_lt.mpr (by exact_mod_cast this)
  refine ⟨?_, ?_, ?_, ?_, ?_, ?_, ?_⟩
  · unfold mansionOf get_planet_position
    simp only
    rw [pmod_pmod l (by norm_num)]
  · omega
  · omega
  · omega
  · omega
  · show (mansionOf l - 1).toNat < 27
    omega
  · show (signOf l - 1).toNat < 12
    omega

/-! ## Matchmaking: North Indian Ashtakoota (services/matchmaking.py) -/

/-- `NAKSHATRA_GANA` with the `.get(nak, 2)` default used by the code. -/
def nakshatraGana (nak : ℕ) : ℕ :=
  match nak with
  | 1 => 1 | 5 => 1 | 7 => 1 | 8 => 1 | 13 => 1 | 15 => 1 | 17 => 1
  | 22 => 1 | 27 => 1
  | 2 => 2 | 4 => 2 | 6 => 2 | 11 => 2 | 12 => 2 | 20 => 2 | 21 => 2
  | 25 => 2 | 26 => 2
  | 3 => 3 | 9 => 3 | 10 => 3 | 14 => 3 | 16 => 3 | 18 => 3 | 19 => 3
  | 23 => 3 | 24 => 3
  | _ => 2

/-- `NAKSHATRA_YONI` (animal, gender) with the `("Unknown", "M")` default. -/
def nakshatraYoni (nak : ℕ) : String × String :=
  match nak with
  | 1 => ("Horse", "M") | 2 => ("Elephant", "M") | 3 => ("Goat", "F")
  | 4 => ("Serpent", "M") | 5 => ("Serpent", "F") | 6 => ("Dog", "F")
  | 7 => ("Cat", "F") | 8 => ("Goat", "M") | 9 => ("Cat", "M")
  | 10 => ("Rat", "M") | 11 => ("Rat", "F") | 12 => ("Buffalo", "M")
  | 13 => ("Buffalo", "F") | 14 => ("Tiger", "F") | 15 => ("Buffalo", "M")
  | 16 => ("Tiger", "M") | 17 => ("Deer", "F") | 18 => ("Deer", "M")
  | 19 => ("Dog", "M") | 20 => ("Monkey", "M") | 21 => ("Mongoose", "M")
  | 22 => ("Monkey", "F") | 23 => ("Lion", "F") | 24 => ("Horse", "F")
  | 25 => ("Lion", "M") | 26 => ("Cow", "F") | 27 => ("Elephant", "F")
  | _ => ("Unknown", "M")

/-- `YONI_ENEMIES` key set (all mapped values are 0). -/
def yoniEnemies : List (String × String) :=
  [("Horse", "Buffalo"), ("Elephant", "Lion"), ("Goat", "Monkey"),
   ("Serpent", "Mongoose"), ("Dog", "Deer"), ("Cat", "Rat"),
   ("Tiger", "Cow")]

/-- `NAKSHATRA_NADI` with the `.get(nak, 1)` default. -/
def nakshatraNadi (nak : ℕ) : ℕ :=
  match nak with
  | 1 => 1 | 2 => 2 | 3 => 3 | 4 => 3 | 5 => 2 | 6 => 1 | 7 => 1 | 8 => 2
  | 9 => 3 | 10 => 1 | 11 => 2 | 12 => 3 | 13 => 3 | 14 => 2 | 15 => 1
  | 16 => 1 | 17 => 2 | 18 => 3 | 19 => 1 | 20 => 2 | 21 => 3 | 22 => 3
  | 23 => 2 | 24 => 1 | 25 => 1 | 26 => 2 | 27 => 3
  | _ => 1

/-- `RASHI_VARNA` with the `.get(rashi, 1)` default. -/
def rashiVarna (rashi : ℕ) : ℕ :=
  match rashi with
  | 1 => 4 | 2 => 3 | 3 => 3 | 4 => 1 | 5 => 4 | 6 => 3
  | 7 => 3 | 8 => 1 | 9 => 4 | 10 => 3 | 11 => 3 | 12 => 1
  | _ => 1

/-- `VASHYA_TYPES` with the `.get(rashi, "Unknown")` default. -/
def vashyaType (rashi : ℕ) : String :=
  match rashi with
  | 1 => "Chatushpad" | 2 => "Chatushpad" | 3 => "Dwipad" | 4 => "Keeta"
  | 5 => "Chatushpad" | 6 => "Dwipad" | 7 => "Dwipad" | 8 => "Keeta"
  | 9 => "Chatushpad" | 10 => "Jalachara" | 11 => "Dwipad"
  | 12 => "Jalachara"
  | _ => "Unknown"

/-- The rashi-lord table shared by `_check_graha_maitri_koota` and
`_check_rasiyathipathi` (a `KeyError` outside 1..12; modelled total with an
empty-string default never reached on valid signs). -/
def rashiLord (rashi : ℕ) : String :=
  match rashi with
  | 1 => "Mars" | 2 => "Venus" | 3 => "Mercury" | 4 => "Moon"
  | 5 => "Sun" | 6 => "Mercury" | 7 => "Venus" | 8 => "Mars"
  | 9 => "Jupiter" | 10 => "Saturn" | 11 => "Saturn" | 12 => "Jupiter"
  | _ => ""

/-- The planet-friendship score table of `_check_graha_maitri_koota`, with the
`.get(pair, 0)` default. -/
def maitriFriendship (a b : String) : ℕ :=
  match a, b with
  | "Sun", "Moon" => 5 | "Sun", "Mars" => 5 | "Sun", "Jupiter" => 5
  | "Moon", "Sun" => 5 | "Moon", "Mercury" => 4
  | "Mars", "Sun" => 5 | "Mars", "Moon" => 5 | "Mars", "Jupiter" => 5
  | "Mercury", "Sun" => 4 | "Mercury", "Venus" => 5
  | "Jupiter", "Sun" => 5 | "Jupiter", "Moon" => 5 | "Jupiter", "Mars" => 5
  | "Venus", "Mercury" => 5 | "Venus", "Saturn" => 5
  | "Saturn", "Mercury" => 4 | "Saturn", "Venus" => 5
  | _, _ => 0

/-- The gana compatibility matrix of `_check_gana_koota`, with the
`.get(pair, 0)` default. -/
def ganaMatrix (a b : ℕ) : ℕ :=
  match a, b with
  | 1, 1 => 6 | 1, 2 => 5 | 1, 3 => 1
  | 2, 1 => 3 | 2, 2 => 6 | 2, 3 => 0
  | 3, 1 => 1 | 3, 2 => 0 | 3, 3 => 6
  | _, _ => 0

/-- One row of the Ashtakoota table: factor name, fixed maximum, points
awarded. -/
structure AshtakootaResult where
  name : String
  maxPoints : ℕ
  points : ℚ
  deriving DecidableEq, Repr

/-- `_check_varna_koota` (1 point max). -/
def varnaKoota (brideRashi groomRashi : ℕ) : AshtakootaResult :=
  let brideVarna := rashiVarna brideRashi
  let groomVarna := rashiVarna groomRashi
  { name := "Varna", maxPoints := 1,
    points := if groomVarna ≥ brideVarna then 1 else 0 }

/-- `_check_vashya_koota` (2 points max). -/
def vashyaKoota (brideRashi groomRashi : ℕ) : AshtakootaResult :=
  let brideType := vashyaType brideRashi
  let groomType := vashyaType groomRashi
  let points : ℚ :=
    if brideType = groomType then 2
    else if (brideType = "Dwipad" ∧ groomType = "Chatushpad") ∨
            (brideType = "Chatushpad" ∧ groomType = "Dwipad") then 1
    else if brideType = "Keeta" ∨ groomType = "Keeta" then 0
    else 1/2
  { name := "Vashya", maxPoints := 2, points := points }

/-- `_check_tara_koota` (3 points max). -/
def taraKoota (brideNak groomNak : ℕ) : AshtakootaResult :=
  let count1 : ℤ := ((brideNak : ℤ) - (groomNak : ℤ)) % 27 + 1
  let count2 : ℤ := ((groomNak : ℤ) - (brideNak : ℤ)) % 27 + 1
  let tara1 : ℤ := (count1 - 1) % 9 + 1
  let tara2 : ℤ := (count2 - 1) % 9 + 1
  let inausp : List ℤ := [3, 5, 7]
  let points : ℚ :=
    if tara1 ∉ inausp ∧ tara2 ∉ inausp then 3
    else if tara1 ∈ inausp ∧ tara2 ∈ inausp then 0
    else 3/2
  { name := "Tara", maxPoints := 3, points := points }

/-- `_check_yoni_koota` (4 points max). -/
def yoniKoota (brideNak groomNak : ℕ) : AshtakootaResult :=
  let bride := nakshatraYoni brideNak
  let groom := nakshatraYoni groomNak
  let points : ℚ :=
    if (bride.1, groom.1) ∈ yoniEnemies ∨ (groom.1, bride.1) ∈ yoniEnemies
    then 0
    else if bride.1 = groom.1 then
      if bride.2 ≠ groom.2 then 4 else 3
    else 2
  { name := "Yoni", maxPoints := 4, points := points }

/-- `_check_graha_maitri_koota` (5 points max). -/
def grahaMaitriKoota (brideRashi groomRashi : ℕ) : AshtakootaResult :=
  let brideLord := rashiLord brideRashi
  let groomLord := rashiLord groomRashi
  let points : ℚ :=
    if brideLord = groomLord then 5
    else (max (max (maitriFriendship brideLord groomLord)
                   (maitriFriendship groomLord brideLord)) 0 : ℕ)
  { name := "Graha Maitri", maxPoints := 5, points := points }

/-- `_check_gana_koota` (6 points max). -/
def ganaKoota (brideNak groomNak : ℕ) : AshtakootaResult :=
  { name := "Gana", maxPoints := 6,
    points := (ganaMatrix (nakshatraGana brideNak) (nakshatraGana groomNak) : ℚ) }

/-- `_check_bhakoot_koota` (7 points max). -/
def bhakootKoota (brideRashi groomRashi : ℕ) : AshtakootaResult :=
  let count : ℤ := ((groomRashi : ℤ) - (brideRashi : ℤ)) % 12 + 1
  let reverseCount : ℤ := ((brideRashi : ℤ) - (groomRashi : ℤ)) % 12 + 1
  let inauspPairs : List (ℤ × ℤ) :=
    [(2, 12), (12, 2), (5, 9), (9, 5), (6, 8), (8, 6)]
  let points : ℚ :=
    if (count, reverseCount) ∈ inauspPairs ∨ count ∈ ([6, 8] : List ℤ)
    then 0 else 7
  { name := "Bhakoot", maxPoints := 7, points := points }

/-- `_check_nadi_koota` (8 points max). -/
def nadiKoota (brideNak groomNak : ℕ) : AshtakootaResult :=
  { name := "Nadi", maxPoints := 8,
    points := if nakshatraNadi brideNak = nakshatraNadi groomNak then 0 else 8 }

/-- `NorthIndianMatchResult`: the fields the claims depend on. -/
structure NorthIndianMatchResult where
  kootas : List AshtakootaResult
  totalPoints : ℚ
  maxPoints : ℕ
  percentage : ℚ
  overallRecommendation : String
  nadiDosha : Bool
  bhakootDosha : Bool
  exceptionsApplied : List String
  deriving DecidableEq, Repr

/-- `MatchmakingService.calculate_north_indian_match`.  Note that, as in the
source, `percentage` (and hence the recommendation ladder) is computed from
the pre-exception total, while the nadi-dosha exception adds 4 points back to
the Nadi row and the running total afterwards. -/
def calculate_north_indian_match (brideNak brideRashi groomNak groomRashi : ℕ)
    (applyExceptions : Bool := true) : NorthIndianMatchResult :=
  let varna := varnaKoota brideRashi groomRashi
  let vashya := vashyaKoota brideRashi groomRashi
  let tara := taraKoota brideNak groomNak
  let yoni := yoniKoota brideNak groomNak
  let maitri := grahaMaitriKoota brideRashi groomRashi
  let gana := ganaKoota brideNak groomNak
  let bhakoot := bhakootKoota brideRashi groomRashi
  let nadi := nadiKoota brideNak groomNak
  let kootas := [varna, vashya, tara, yoni, maitri, gana, bhakoot, nadi]
  let totalPoints := (kootas.map (fun k => k.points)).sum
  let percentage := totalPoints / 36 * 100
  let nadiDosha := nadi.points = 0
  let bhakootDosha := bhakoot.points = 0
  let exceptionApplies :=
    applyExceptions = true ∧ nadiDosha ∧
    brideRashi = groomRashi ∧ brideNak ≠ groomNak
  let kootas := if exceptionApplies then
      kootas.map (fun k => if k.name = "Nadi" then { k with points := 4 } else k)
    else kootas
  let totalPoints := if exceptionApplies then totalPoints + 4 else totalPoints
  let nadiDoshaFinal := if exceptionApplies then False else nadiDosha
  let exceptions := if exceptionApplies then
      ["Nadi dosha cancelled: Same rashi, different nakshatra"] else []
  let baseRecommendation :=
    if percentage ≥ 75 then "Excellent Match - Highly recommended"
    else if percentage ≥ 60 then "Good Match - Compatible with minor adjustments"
    else if percentage ≥ 50 then "Average Match - Some challenges expected"
    else if percentage ≥ 36 then "Below Average - Significant compatibility issues"
    else "Not Recommended - Major incompatibilities"
  let recommendation :=
    if nadiDoshaFinal ∧ bhakootDosha then
      "Caution Advised - Both Nadi and Bhakoot doshas present"
    else baseRecommendation
  { kootas := kootas
    totalPoints := totalPoints
    maxPoints := 36
    percentage := percentage
    overallRecommendation := recommendation
    nadiDosha := decide nadiDoshaFinal
    bhakootDosha := decide bhakootDosha
    exceptionsApplied := exceptions }

lemma varnaKoota_self (r : ℕ) : varnaKoota r r = ⟨"Varna", 1, 1⟩ := by
  unfold varnaKoota
  simp

lemma vashyaKoota_self (r : ℕ) : vashyaKoota r r = ⟨"Vashya", 2, 2⟩ := by
  unfold vashyaKoota
  simp

lemma taraKoota_self (n : ℕ) : taraKoota n n = ⟨"Tara", 3, 3⟩ := by
  unfold taraKoota
  norm_num

lemma pair_self_not_enemy (a : String) : (a, a) ∉ yoniEnemies := by
  intro h
  simp only [yoniEnemies, List.mem_cons, List.not_mem_nil, or_false,
    Prod.mk.injEq] at h
  rcases h with ⟨h1, h2⟩ | ⟨h1, h2⟩ | ⟨h1, h2⟩ | ⟨h1, h2⟩ | ⟨h1, h2⟩ |
    ⟨h1, h2⟩ | ⟨h1, h2⟩ <;> (subst h1; exact absurd h2 (by decide))

lemma yoniKoota_self (n : ℕ) : yoniKoota n n = ⟨"Yoni", 4, 3⟩ := by
  unfold yoniKoota
  simp [pair_self_not_enemy]

lemma grahaMaitriKoota_self (r : ℕ) :
    grahaMaitriKoota r r = ⟨"Graha Maitri", 5, 5⟩ := by
  unfold grahaMaitriKoota
  simp

lemma nakshatraGana_cases (n : ℕ) :
    nakshatraGana n = 1 ∨ nakshatraGana n = 2 ∨ nakshatraGana n = 3 := by
  unfold nakshatraGana
  split <;> simp

lemma ganaKoota_self (n : ℕ) : ganaKoota n n = ⟨"Gana", 6, 6⟩ := by
  unfold ganaKoota
  rcases nakshatraGana_cases n with h | h | h <;> rw [h] <;> norm_num [ganaMatrix]

lemma bhakootKoota_self (r : ℕ) : bhakootKoota r r = ⟨"Bhakoot", 7, 7⟩ := by
  unfold bhakootKoota
  norm_num
  decide

lemma nadiKoota_self (n : ℕ) : nadiKoota n n = ⟨"Nadi", 8, 0⟩ := by
  unfold nadiKoota
  simp

/-- C1 counterexample: with bride mansion 1, sign 1 and groom mansion 1,
sign 1 (identical charts), the 8-factor scorer reports a nadi dosha (same
nadi is the dosha condition, and the cancellation exception requires
different mansions) and a total of 27 points, which is below 30. -/
theorem identical_charts_not_dosha_free :
    (calculate_north_indian_match 1 1 1 1 true).nadiDosha = true ∧
    (calculate_north_indian_match 1 1 1 1 true).totalPoints = 27 ∧
    ¬(30 ≤ (calculate_north_indian_match 1 1 1 1 true).totalPoints) := by
  unfold calculate_north_indian_match
  rw [varnaKoota_self, vashyaKoota_self, taraKoota_self, yoniKoota_self,
    grahaMaitriKoota_self, ganaKoota_self, bhakootKoota_self, nadiKoota_self]
  norm_num

/-- C1 amended: for every identical pair of inputs (same mansion n and same
sign r for both parties) the 8-factor scorer awards the factor maximum on
Varna (1), Vashya (2), Tara (3), Graha Maitri (5), Gana (6) and Bhakoot (7),
but Yoni scores only 3 of 4 (same animal of the same gender is not the top
rubric row) and Nadi scores 0 and registers a nadi dosha that is not
cancelled (the exception requires different mansions); the total is
therefore always 27, below 30, and bhakoot dosha is absent. -/
theorem identical_charts_scores (n r : ℕ) :
    (calculate_north_indian_match n r n r true).totalPoints = 27 ∧
    (calculate_north_indian_match n r n r true).nadiDosha = true ∧
    (calculate_north_indian_match n r n r true).bhakootDosha = false ∧
    ((calculate_north_indian_match n r n r true).kootas.map
      (fun k => k.points)) = [1, 2, 3, 3, 5, 6, 7, 0] := by
  unfold calculate_north_indian_match
  rw [varnaKoota_self, vashyaKoota_self, taraKoota_self, yoniKoota_self,
    grahaMaitriKoota_self, ganaKoota_self, bhakootKoota_self, nadiKoota_self]
  norm_num

/-! ## Karana (services/panchang.py) -/

/-- `KARANA_NAMES` (panchang.py): 7 movable karanas followed by the 4 fixed
ones. -/
def KARANA_NAMES : List String :=
  ["Bava", "Balava", "Kaulava", "Taitila", "Gara",
   "Vanija", "Vishti", "Shakuni", "Chatushpada", "Naga", "Kimstughna"]

/-- `KaranaInfo`: the source declares `number: int  # 1-11 (11 unique
karanas)`. -/
structure KaranaInfo where
  number : ℕ
  name : String
  nature : String
  deriving DecidableEq, Repr

/-- `PanchangService._calculate_karana`.  `tithiNumber` is the 1-30 lunar-day
number produced by `_calculate_tithi` (for `tithiNumber = 0`, Python would
compute `-1`; natural subtraction differs there, but that value is outside the
producer's range). -/
def calculate_karana (tithiNumber : ℕ) (tithiPercent : ℚ) : KaranaInfo :=
  let karanaNumber := (tithiNumber - 1) * 2 + (if tithiPercent < 50 then 1 else 2)
  if karanaNumber ≤ 1 then
    { number := karanaNumber, name := KARANA_NAMES.getD 10 "", nature := "Fixed" }
  else if karanaNumber ≥ 58 then
    let fixedIndex := karanaNumber - 58
    { number := karanaNumber, name := KARANA_NAMES.getD (7 + fixedIndex) "",
      nature := "Fixed" }
  else
    let movingIndex := (karanaNumber - 2) % 7
    { number := karanaNumber, name := KARANA_NAMES.getD movingIndex "",
      nature := "Movable" }

/-- C4: evaluating `_calculate_karana` at lunar day 30 with 60 percent of the
lunar day elapsed yields karana number 60 — the field the source documents as
`1-11` actually carries the half-lunar-day ordinal `(tithi-1)*2 + half`,
which ranges up to 60 (e.g. already 23 at lunar day 12).  The name cycling
(fixed boundary karanas, 7-entry movable cycle) does follow the documented
scheme. -/
theorem karana_number_outside_documented_range :
    (calculate_karana 30 60).number = 60 ∧
    ¬((calculate_karana 30 60).number ≤ 11) ∧
    (calculate_karana 30 60).name = "Naga" ∧
    (calculate_karana 12 0).number = 23 := by
  refine ⟨?_, ?_, ?_, ?_⟩ <;> norm_num [calculate_karana, KARANA_NAMES]

/-! ## Vimshottari dasha (services/ephemeris.py, core/config.py) -/

/-- Python `int()` (truncation toward zero) on a rational. -/
def pytrunc (x : ℚ) : ℤ := if 0 ≤ x then ⌊x⌋ else ⌈x⌉

/-- `VIMSHOTTARI_SEQUENCE` (config.py). -/
def VIMSHOTTARI_SEQUENCE : List String :=
  ["Ketu", "Venus", "Sun", "Moon", "Mars",
   "Rahu", "Jupiter", "Saturn", "Mercury"]

/-- The `nakshatra_lord_sequence` list declared inside
`calculate_vimshottari_dasha` (same nine rulers in the same order). -/
def nakshatraLordSequence : List String :=
  ["Ketu", "Venus", "Sun", "Moon", "Mars",
   "Rahu", "Jupiter", "Saturn", "Mercury"]

/-- `VIMSHOTTARI_PERIODS` (config.py), in years.  A key error outside the
nine rulers is modelled by a zero default that is never reached. -/
def vimshottariPeriod (planet : String) : ℚ :=
  match planet with
  | "Ketu" => 7 | "Venus" => 20 | "Sun" => 6 | "Moon" => 10 | "Mars" => 7
  | "Rahu" => 18 | "Jupiter" => 16 | "Saturn" => 19 | "Mercury" => 17
  | _ => 0

/-- `DashaPeriod` (ephemeris.py); moments are rationals counted in days. -/
structure DashaPeriod where
  planet : String
  startDate : ℚ
  endDate : ℚ
  level : ℕ
  durationYears : ℚ
  deriving DecidableEq, Repr

/-- Indexing into the nine-ruler cycle (Python `VIMSHOTTARI_SEQUENCE[i]`,
always called with `i < 9`). -/
def seqAt (i : ℕ) : String := VIMSHOTTARI_SEQUENCE.getD i ""

/-- The `for i in range(9)` loop of `calculate_antardasha`: `i` counts the
iterations already done, `fuel` those remaining, `current` the running start
date; `totalDays` is the whole-day count of the parent period. -/
def antardasha_go (startIndex : ℕ) (totalDays : ℤ) :
    ℕ → ℕ → ℚ → List DashaPeriod
  | _, 0, _ => []
  | i, fuel + 1, current =>
    let antarLord := seqAt ((startIndex + i) % 9)
    let antarRatio := vimshottariPeriod antarLord / 120
    let antarDays := (totalDays : ℚ) * antarRatio
    let antarYears := antarDays / (1461 / 4)
    let endDate := current + antarDays
    { planet := antarLord, startDate := current, endDate := endDate,
      level := 2, durationYears := antarYears } ::
      antardasha_go startIndex totalDays (i + 1) fuel endDate

/-- `EphemerisService.calculate_antardasha`: subdivides a maha dasha into 9
sub-periods; the parent length enters only as
`total_days = (end_date - start_date).days`, i.e. floored to whole days. -/
def calculate_antardasha (mahaDasha : DashaPeriod) : List DashaPeriod :=
  let mahaStartIndex := VIMSHOTTARI_SEQUENCE.indexOf mahaDasha.planet
  let totalDays : ℤ := ⌊mahaDasha.endDate - mahaDasha.startDate⌋
  antardasha_go mahaStartIndex totalDays 0 9 mahaDasha.startDate

/-- Starting ruler selection of `calculate_vimshottari_dasha`:
`nakshatra_lord_sequence[int(moon_longitude / (360/27)) % 9]`. -/
def vimshottariStartLord (moonLongitude : ℚ) : String :=
  nakshatraLordSequence.getD (Int.toNat (pytrunc (moonLongitude / (360 / 27)) % 9)) ""

/-- Fraction of the birth nakshatra already elapsed:
`(moon_longitude % (360/27)) / (360/27)`. -/
def vimshottariFractionPassed (moonLongitude : ℚ) : ℚ :=
  pmod moonLongitude (360 / 27) / (360 / 27)

/-- The `for i in range(1, 10)` loop of `calculate_vimshottari_dasha`,
including its early break once `(current - birth).days / 365.25` exceeds the
forward horizon. -/
def vims_go (startIndex : ℕ) (birth : ℚ) (yearsForward : ℕ) :
    ℕ → ℕ → ℚ → List DashaPeriod
  | _, 0, _ => []
  | i, fuel + 1, current =>
    let dashaLord := seqAt ((startIndex + i) % 9)
    let periodYears := vimshottariPeriod dashaLord
    let endDate := current + periodYears * (1461 / 4)
    if ((⌊current - birth⌋ : ℚ) / (1461 / 4)) > (yearsForward : ℚ) then []
    else
      { planet := dashaLord, startDate := current, endDate := endDate,
        level := 1, durationYears := periodYears } ::
        vims_go startIndex birth yearsForward (i + 1) fuel endDate

/-- `EphemerisService.calculate_vimshottari_dasha`: first (partial) maha
dasha from the birth nakshatra, then up to nine further full periods in cycle
order. -/
def calculate_vimshottari_dasha (moonLongitude : ℚ) (birth : ℚ)
    (yearsForward : ℕ := 120) : List DashaPeriod :=
  let startDashaLord := vimshottariStartLord moonLongitude
  let fractionPassed := vimshottariFractionPassed moonLongitude
  let startIndex := VIMSHOTTARI_SEQUENCE.indexOf startDashaLord
  let firstPeriodYears := vimshottariPeriod startDashaLord
  let remainingYears := firstPeriodYears * (1 - fractionPassed)
  let endDate := birth + remainingYears * (1461 / 4)
  { planet := startDashaLord, startDate := birth, endDate := endDate,
    level := 1, durationYears := remainingYears } ::
    vims_go startIndex birth yearsForward 1 9 endDate

lemma antardasha_go_length (s : ℕ) (t : ℤ) :
    ∀ (fuel i : ℕ) (c : ℚ), (antardasha_go s t i fuel c).length = fuel := by
  intro fuel
  induction fuel with
  | zero => intro i c; rfl
  | succ n ih => intro i c; simp [antardasha_go, ih]

lemma antardasha_go_head (s : ℕ) (t : ℤ) (fuel i : ℕ) (c : ℚ) :
    (antardasha_go s t i (fuel + 1) c).head? = some
      { planet := seqAt ((s + i) % 9), startDate := c,
        endDate := c + (t : ℚ) * (vimshottariPeriod (seqAt ((s + i) % 9)) / 120),
        level := 2,
        durationYears :=
          (t : ℚ) * (vimshottariPeriod (seqAt ((s + i) % 9)) / 120) / (1461 / 4) } :=
  rfl

lemma antardasha_go_chain (s : ℕ) (t : ℤ) :
    ∀ (fuel i : ℕ) (c : ℚ),
      List.Chain' (fun a b => a.endDate = b.startDate)
        (antardasha_go s t i fuel c) := by
  intro fuel
  induction fuel with
  | zero => intro i c; simp [antardasha_go]
  | succ n ih =>
    intro i c
    rw [antardasha_go, List.chain'_cons']
    refine ⟨?_, ih (i + 1) _⟩
    intro y hy
    cases n with
    | zero => simp [antardasha_go] at hy
    | succ m =>
      rw [antardasha_go_head] at hy
      simp only [Option.mem_def, Option.some.injEq] at hy
      subst hy
      rfl

lemma antardasha_go_mem (s : ℕ) (t : ℤ) :
    ∀ (fuel i : ℕ) (c : ℚ) (p : DashaPeriod), p ∈ antardasha_go s t i fuel c →
      p.level = 2 ∧
      p.endDate - p.startDate = (t : ℚ) * vimshottariPeriod p.planet / 120 := by
  intro fuel
  induction fuel with
  | zero => intro i c p hp; simp [antardasha_go] at hp
  | succ n ih =>
    intro i c p hp
    rw [antardasha_go] at hp
    rcases List.mem_cons.mp hp with h | h
    · subst h
      refine ⟨rfl, ?_⟩
      ring
    · exact ih (i + 1) _ p h

/-- Helper: the sum of the ruler year-allocations consumed by `fuel`
consecutive steps of the antardasha loop. -/
def antarPeriodSum (s : ℕ) : ℕ → ℕ → ℚ
  | _, 0 => 0
  | i, fuel + 1 =>
    vimshottariPeriod (seqAt ((s + i) % 9)) + antarPeriodSum s (i + 1) fuel

lemma antardasha_go_sum (s : ℕ) (t : ℤ) :
    ∀ (fuel i : ℕ) (c : ℚ),
      ((antardasha_go s t i fuel c).map (fun p => p.endDate - p.startDate)).sum
        = (t : ℚ) * antarPeriodSum s i fuel / 120 := by
  intro fuel
  induction fuel with
  | zero => intro i c; simp [antardasha_go, antarPeriodSum]
  | succ n ih =>
    intro i c
    rw [antardasha_go, antarPeriodSum]
    simp only [List.map_cons, List.sum_cons, ih (i + 1)]
    ring

lemma antarPeriodSum_full (s : ℕ) (hs : s < 9) : antarPeriodSum s 0 9 = 120 := by
  interval_cases s <;>
    norm_num [antarPeriodSum, seqAt, VIMSHOTTARI_SEQUENCE, vimshottariPeriod,
      List.getD]

lemma seqAt_indexOf {planet : String} (h : planet ∈ VIMSHOTTARI_SEQUENCE) :
    seqAt (VIMSHOTTARI_SEQUENCE.indexOf planet) = planet := by
  unfold seqAt
  rw [List.getD_eq_getElem _ _ (List.indexOf_lt_length.mpr h)]
  exact List.getElem_indexOf (List.indexOf_lt_length.mpr h)

/-- C3 counterexample: for a level-1 period of one and a half days (ruler
Sun, start 0, end 1.5), the nine sub-period durations sum to 1 day — the
parent length is floored to whole days (`.days`) before subdivision and no
rounding remainder is applied to the final sub-period — so the sum is not the
parent duration of 1.5 days. -/
theorem antardasha_sum_not_parent_duration :
    (((calculate_antardasha
        { planet := "Sun", startDate := 0, endDate := 3 / 2, level := 1,
          durationYears := (3 / 2) / (1461 / 4) }).map
      (fun p => p.endDate - p.startDate)).sum = 1) ∧
    ¬ (((calculate_antardasha
        { planet := "Sun", startDate := 0, endDate := 3 / 2, level := 1,
          durationYears := (3 / 2) / (1461 / 4) }).map
      (fun p => p.endDate - p.startDate)).sum = 3 / 2 - 0) := by
  have hidx : VIMSHOTTARI_SEQUENCE.indexOf "Sun" = 2 := by decide
  have hfl : ⌊(3 / 2 : ℚ) - 0⌋ = 1 := by norm_num
  constructor
  · show ((antardasha_go (VIMSHOTTARI_SEQUENCE.indexOf "Sun")
        ⌊(3 / 2 : ℚ) - 0⌋ 0 9 0).map (fun p => p.endDate - p.startDate)).sum = 1
    rw [hidx, hfl, antardasha_go_sum]
    rw [show antarPeriodSum 2 0 9 = 120 from antarPeriodSum_full 2 (by norm_num)]
    norm_num
  · show ¬ ((antardasha_go (VIMSHOTTARI_SEQUENCE.indexOf "Sun")
        ⌊(3 / 2 : ℚ) - 0⌋ 0 9 0).map (fun p => p.endDate - p.startDate)).sum
        = 3 / 2 - 0
    rw [hidx, hfl, antardasha_go_sum]
    rw [show antarPeriodSum 2 0 9 = 120 from antarPeriodSum_full 2 (by norm_num)]
    norm_num

/-- C3 amended: for every level-1 period whose ruler is one of the nine cycle
rulers, `calculate_antardasha` returns 9 level-2 sub-periods, starting from
the parent's own ruler at the parent's start date, contiguous (each period's
end is the next period's start), each of duration
`floor(parent_duration_in_days) × ruler_years/120`, and the durations sum
exactly to the parent duration floored to whole days (not to the exact parent
duration; no rounding remainder is applied to the final sub-period). -/
theorem antardasha_subdivision (md : DashaPeriod)
    (h : md.planet ∈ VIMSHOTTARI_SEQUENCE) :
    (calculate_antardasha md).length = 9 ∧
    (∀ p ∈ calculate_antardasha md, p.level = 2 ∧
      p.endDate - p.startDate =
        ((⌊md.endDate - md.startDate⌋ : ℤ) : ℚ) * vimshottariPeriod p.planet / 120) ∧
    (∃ p, (calculate_antardasha md).head? = some p ∧ p.planet = md.planet ∧
      p.startDate = md.startDate) ∧
    List.Chain' (fun a b => a.endDate = b.startDate) (calculate_antardasha md) ∧
    ((calculate_antardasha md).map (fun p => p.endDate - p.startDate)).sum =
      ((⌊md.endDate - md.startDate⌋ : ℤ) : ℚ) := by
  have hidx : VIMSHOTTARI_SEQUENCE.indexOf md.planet < 9 := by
    have h2 := List.indexOf_lt_length.mpr h
    simpa [VIMSHOTTARI_SEQUENCE] using h2
  unfold calculate_antardasha
  refine ⟨antardasha_go_length _ _ _ _ _, ?_, ?_, antardasha_go_chain _ _ _ _ _, ?_⟩
  · intro p hp
    exact antardasha_go_mem _ _ 9 0 _ p hp
  · refine ⟨_, antardasha_go_head _ _ 8 0 _, ?_, rfl⟩
    simp only
    rw [Nat.add_zero, Nat.mod_eq_of_lt hidx]
    exact seqAt_indexOf h
  · rw [antardasha_go_sum, antarPeriodSum_full _ hidx]
    ring

/-- Witness for `antardasha_subdivision`: a concrete 10-day Ketu period. -/
theorem antardasha_subdivision_witness :
    (calculate_antardasha
      { planet := "Ketu", startDate := 0, endDate := 10, level := 1,
        durationYears := 0 }).length = 9 ∧
    List.Chain' (fun a b => a.endDate = b.startDate)
      (calculate_antardasha
        { planet := "Ketu", startDate := 0, endDate := 10, level := 1,
          durationYears := 0 }) :=
  ⟨(antardasha_subdivision _ (by decide)).1,
   (antardasha_subdivision _ (by decide)).2.2.2.1⟩

lemma vims_go_start (s : ℕ) (b : ℚ) (y : ℕ) :
    ∀ (fuel i : ℕ) (c : ℚ) (p : DashaPeriod),
      (vims_go s b y i fuel c).head? = some p → p.startDate = c := by
  intro fuel
  cases fuel with
  | zero => intro i c p hp; simp [vims_go] at hp
  | succ n =>
    intro i c p hp
    rw [vims_go] at hp
    split at hp
    · simp at hp
    · simp only [List.head?_cons, Option.some.injEq] at hp
      subst hp
      rfl

lemma vims_go_chain (s : ℕ) (b : ℚ) (y : ℕ) :
    ∀ (fuel i : ℕ) (c : ℚ),
      List.Chain' (fun a b => a.endDate = b.startDate) (vims_go s b y i fuel c) := by
  intro fuel
  induction fuel with
  | zero => intro i c; simp [vims_go]
  | succ n ih =>
    intro i c
    rw [vims_go]
    split
    · simp
    · rw [List.chain'_cons']
      refine ⟨?_, ih (i + 1) _⟩
      intro p hp
      have := vims_go_start s b y n (i + 1) _ p hp
      simp only [this]

/-- C9: the nine fixed year-allocations of the Vimshottari cycle sum to
exactly 120 years; for every Moon longitude, birth moment and horizon the
level-1 periods returned by `calculate_vimshottari_dasha` are contiguous
(each period's end is the next period's start); and the first period starts
at birth with its length truncated by the fraction of the birth mansion's arc
already elapsed. -/
theorem vimshottari_cycle_and_contiguity (moonLongitude birth : ℚ)
    (yearsForward : ℕ) :
    (VIMSHOTTARI_SEQUENCE.map vimshottariPeriod).sum = 120 ∧
    List.Chain' (fun a b => a.endDate = b.startDate)
      (calculate_vimshottari_dasha moonLongitude birth yearsForward) ∧
    (calculate_vimshottari_dasha moonLongitude birth yearsForward).head? = some
      { planet := vimshottariStartLord moonLongitude, startDate := birth,
        endDate := birth + vimshottariPeriod (vimshottariStartLord moonLongitude) *
          (1 - vimshottariFractionPassed moonLongitude) * (1461 / 4),
        level := 1,
        durationYears := vimshottariPeriod (vimshottariStartLord moonLongitude) *
          (1 - vimshottariFractionPassed moonLongitude) } := by
  refine ⟨?_, ?_, rfl⟩
  · norm_num [VIMSHOTTARI_SEQUENCE, vimshottariPeriod]
  · unfold calculate_vimshottari_dasha
    rw [List.chain'_cons']
    refine ⟨?_, vims_go_chain _ _ _ 9 1 _⟩
    intro p hp
    have := vims_go_start _ _ _ 9 1 _ p hp
    simp only [this]

/-! ## Muhurat window search (services/muhurat.py, routers/muhurat.py)

Times of day are rationals counted in seconds (datetimes have microsecond
resolution; the arithmetic here is exact).  The per-day panchang (produced in
the source by `PanchangService.calculate_panchang` from the external
ephemeris) is an input record. -/

/-- The per-event rule set (`EVENT_RULES` values); `avoidLunarMonths` is
empty when the `avoid_lunar_months` key is absent, matching
`rules.get("avoid_lunar_months", [])`. -/
structure EventRules where
  goodTithis : List ℕ
  goodNakshatras : List ℕ
  goodWeekdays : List ℕ
  avoidYogas : List String
  avoidLunarMonths : List String
  deriving DecidableEq, Repr

/-- `EVENT_RULES[EventType.MARRIAGE]`. -/
def MARRIAGE_RULES : EventRules :=
  { goodTithis := [2, 3, 5, 7, 10, 11, 12, 13]
    goodNakshatras := [3, 4, 7, 8, 11, 12, 13, 17, 20, 21, 22, 25, 27]
    goodWeekdays := [1, 3, 4, 5]
    avoidYogas := ["Vishkambha", "Atiganda", "Shula", "Ganda", "Vyaghata",
      "Vajra", "Vyatipata", "Parigha", "Vaidhriti"]
    avoidLunarMonths := [] }

/-- The fields of a `Panchang` that `_evaluate_day` reads.  `pythonWeekday`
is `date.weekday()` (0 = Monday); intervals are (start, end) pairs in
seconds. -/
structure PanchangLite where
  pythonWeekday : ℕ
  tithiNumber : ℕ
  tithiName : String
  nakshatraNumber : ℕ
  nakshatraName : String
  yogaName : String
  yogaNature : String
  karanaName : String
  vaara : String
  masa : String
  sunrise : ℚ
  sunset : ℚ
  rahuKalam : ℚ × ℚ
  yamagandam : ℚ × ℚ
  gulikaKalam : ℚ × ℚ
  deriving DecidableEq, Repr

inductive MuhuratQuality where
  | excellent
  | good
  | moderate
  | poor
  deriving DecidableEq, Repr

/-- `MuhuratWindow` (the numeric/classification fields; the
positive/negative/warning factor string lists, which no claim touches, are
omitted). -/
structure MuhuratWindow where
  startTime : ℚ
  endTime : ℚ
  quality : MuhuratQuality
  score : ℚ
  tithi : String
  nakshatra : String
  yoga : String
  karana : String
  weekday : String
  deriving DecidableEq, Repr

/-- The day-level score accumulation of `_evaluate_day` (the `score = 50`
base and the five sequential adjustments). -/
def day_score (rules : EventRules) (pan : PanchangLite) : ℚ :=
  let vedicWeekday := (pan.pythonWeekday + 1) % 7
  let score : ℚ := 50
  let score := if pan.tithiNumber ∈ rules.goodTithis then score + 10 else score - 10
  let score :=
    if pan.nakshatraNumber ∈ rules.goodNakshatras then score + 15 else score - 10
  let score := if vedicWeekday ∈ rules.goodWeekdays then score + 10 else score - 5
  let score :=
    if pan.yogaName ∈ rules.avoidYogas then score - 15
    else if pan.yogaNature = "Auspicious" then score + 10
    else score
  if pan.masa ∈ rules.avoidLunarMonths then score - 10 else score

/-- The day score as the specification describes it (base 50, ±10 lunar day,
±15 mansion, ±10 weekday, −15 avoided luni-solar angle / +10 auspicious,
−10 avoided lunar month).  This follows the claim text, for comparison with
`day_score`, which follows the code. -/
def day_score_claimed (rules : EventRules) (pan : PanchangLite) : ℚ :=
  let vedicWeekday := (pan.pythonWeekday + 1) % 7
  50 + (if pan.tithiNumber ∈ rules.goodTithis then (10 : ℚ) else -10)
     + (if pan.nakshatraNumber ∈ rules.goodNakshatras then (15 : ℚ) else -15)
     + (if vedicWeekday ∈ rules.goodWeekdays then (10 : ℚ) else -10)
     + (if pan.yogaName ∈ rules.avoidYogas then (-15 : ℚ)
        else if pan.yogaNature = "Auspicious" then 10 else 0)
     + (if pan.masa ∈ rules.avoidLunarMonths then (-10 : ℚ) else 0)

/-- Insertion into a list of `(start, end, name)` blocks kept sorted by start
(used to model the stable `blocked_periods.sort(key=lambda x: x[0])`). -/
def insertBlock (x : ℚ × ℚ × String) :
    List (ℚ × ℚ × String) → List (ℚ × ℚ × String)
  | [] => [x]
  | y :: ys => if x.1 ≤ y.1 then x :: y :: ys else y :: insertBlock x ys

/-- Stable sort of the blocked periods by start time. -/
def sortBlocks : List (ℚ × ℚ × String) → List (ℚ × ℚ × String)
  | [] => []
  | x :: xs => insertBlock x (sortBlocks xs)

/-- The scan loop of `_find_clear_windows`: `currentStart` is the running
cursor; for each blocked period a gap before it is emitted and the cursor
jumps past its end; the remainder up to `dayEnd` is emitted last. -/
def findClearGo (currentStart dayEnd : ℚ) :
    List (ℚ × ℚ × String) → List (ℚ × ℚ)
  | [] => if currentStart < dayEnd then [(currentStart, dayEnd)] else []
  | b :: bs =>
    (if currentStart < b.1 then [(currentStart, b.1)] else []) ++
      findClearGo (max currentStart b.2.1) dayEnd bs

/-- `MuhuratService._find_clear_windows`. -/
def find_clear_windows (dayStart dayEnd : ℚ)
    (blockedPeriods : List (ℚ × ℚ × String)) : List (ℚ × ℚ) :=
  if blockedPeriods = [] then [(dayStart, dayEnd)]
  else findClearGo dayStart dayEnd blockedPeriods

/-- `MuhuratService._evaluate_day`. -/
def evaluate_day (pan : PanchangLite) (rules : EventRules)
    (avoidRahuKalam avoidYamagandam : Bool)
    (excludeNakshatras excludeTithis : List ℕ) : List MuhuratWindow :=
  if pan.tithiNumber ∈ excludeTithis then []
  else if pan.nakshatraNumber ∈ excludeNakshatras then []
  else
    let score := day_score rules pan
    let blockedPeriods :=
      (if avoidRahuKalam then
        [(pan.rahuKalam.1, pan.rahuKalam.2, "Rahu Kalam")] else []) ++
      (if avoidYamagandam then
        [(pan.yamagandam.1, pan.yamagandam.2, "Yamagandam")] else []) ++
      [(pan.gulikaKalam.1, pan.gulikaKalam.2, "Gulika Kalam")]
    let blockedPeriods := sortBlocks blockedPeriods
    let clearWindows := find_clear_windows pan.sunrise pan.sunset blockedPeriods
    clearWindows.filterMap (fun w =>
      if w.2 - w.1 < 1800 then none
      else
        let durationHours := (w.2 - w.1) / 3600
        let windowScore := score + durationHours * 2
        let quality :=
          if windowScore ≥ 80 then MuhuratQuality.excellent
          else if windowScore ≥ 60 then MuhuratQuality.good
          else if windowScore ≥ 40 then MuhuratQuality.moderate
          else MuhuratQuality.poor
        if quality = MuhuratQuality.poor then none
        else some
          { startTime := w.1, endTime := w.2, quality := quality,
            score := min 100 (max 0 windowScore),
            tithi := pan.tithiName, nakshatra := pan.nakshatraName,
            yoga := pan.yogaName, karana := pan.karanaName,
            weekday := pan.vaara })

/-- Stable descending insertion by score (Python `list.sort(key=score,
reverse=True)`). -/
def insertByScoreDesc (x : MuhuratWindow) :
    List MuhuratWindow → List MuhuratWindow
  | [] => [x]
  | y :: ys =>
    if x.score ≥ y.score then x :: y :: ys else y :: insertByScoreDesc x ys

/-- Sort windows by score, highest first (stable). -/
def sortByScoreDesc : List MuhuratWindow → List MuhuratWindow
  | [] => []
  | x :: xs => insertByScoreDesc x (sortByScoreDesc xs)

/-- The day loop of `MuhuratService.find_muhurat`:
`while current_date <= end_date and len(windows) < max_results * 3`.
`panOf d` is the panchang of the d-th day of the range (the external
ephemeris output), `fuel` the number of days left in the range. -/
def find_muhurat_loop (panOf : ℕ → PanchangLite) (rules : EventRules)
    (maxResults : ℕ) (avoidRahuKalam avoidYamagandam : Bool)
    (excludeNakshatras excludeTithis : List ℕ) :
    ℕ → ℕ → List MuhuratWindow → List MuhuratWindow
  | _, 0, windows => windows
  | day, fuel + 1, windows =>
    if windows.length < maxResults * 3 then
      find_muhurat_loop panOf rules maxResults avoidRahuKalam avoidYamagandam
        excludeNakshatras excludeTithis (day + 1) fuel
        (windows ++ evaluate_day (panOf day) rules avoidRahuKalam
          avoidYamagandam excludeNakshatras excludeTithis)
    else windows

/-- `MuhuratService.find_muhurat` (the day loop, the final sort by score
descending and the truncation to `max_results`). -/
def find_muhurat (panOf : ℕ → PanchangLite) (rules : EventRules)
    (numDays maxResults : ℕ) (avoidRahuKalam avoidYamagandam : Bool)
    (excludeNakshatras excludeTithis : List ℕ) : List MuhuratWindow :=
  let windows := find_muhurat_loop panOf rules maxResults avoidRahuKalam
    avoidYamagandam excludeNakshatras excludeTithis 0 numDays []
  (sortByScoreDesc windows).take maxResults

/-- The date-range validation of `routers/muhurat.py::search_muhurat`:
`delta.days > 90` rejects, then `delta.days < 0` rejects, otherwise the
search result is returned.  Dates are in seconds; `timedelta.days` is floor
division by 86400 (Lean integer `/` is euclidean division, which agrees with
floor division for the positive divisor 86400). -/
def search_muhurat_validate (startDate endDate : ℤ)
    (searchResult : List MuhuratWindow) : Except String (List MuhuratWindow) :=
  let deltaDays : ℤ := (endDate - startDate) / 86400
  if deltaDays > 90 then Except.error "Search range cannot exceed 90 days"
  else if deltaDays < 0 then Except.error "end_date must be after start_date"
  else Except.ok searchResult

/-- A concrete day used as counterexample input: favourable lunar day (2),
unfavourable mansion (1), Saturday (vedic weekday 6, unfavourable for
marriage), auspicious non-avoided luni-solar angle, lunar month not on any
avoid list. -/
def panSaturday : PanchangLite :=
  { pythonWeekday := 5, tithiNumber := 2, tithiName := "Dwitiya",
    nakshatraNumber := 1, nakshatraName := "Ashwini", yogaName := "Priti",
    yogaNature := "Auspicious", karanaName := "Balava", vaara := "Shanivara",
    masa := "Chaitra", sunrise := 0, sunset := 14400,
    rahuKalam := (3600, 5400), yamagandam := (7200, 9000),
    gulikaKalam := (10800, 12600) }

/-- C2 counterexample: on `panSaturday` with the marriage rules, the code
scores the day 50 + 10 − 10 − 5 + 10 = 55, while the claimed adjustments
(−15 for a mansion mismatch, −10 for a weekday mismatch) would give
50 + 10 − 15 − 10 + 10 = 45: the two disagree. -/
theorem day_score_differs_from_claimed :
    day_score MARRIAGE_RULES panSaturday = 55 ∧
    day_score_claimed MARRIAGE_RULES panSaturday = 45 ∧
    day_score MARRIAGE_RULES panSaturday ≠
      day_score_claimed MARRIAGE_RULES panSaturday := by
  refine ⟨?_, ?_, ?_⟩ <;>
    · simp [day_score, day_score_claimed, MARRIAGE_RULES, panSaturday]
      try norm_num

/-- C2 amended: for every day and rule set, the day score is exactly
50, plus 10 for a lunar-day match and minus 10 for a mismatch, plus 15 for a
mansion match but only minus 10 for a mismatch, plus 10 for a weekday match
but only minus 5 for a mismatch, minus 15 for an avoided luni-solar angle and
plus 10 for an auspicious one (0 otherwise), and minus 10 when the lunar
month is on the event's avoid list (0 otherwise). -/
theorem day_score_decomposition (rules : EventRules) (pan : PanchangLite) :
    day_score rules pan =
      50 + (if pan.tithiNumber ∈ rules.goodTithis then (10 : ℚ) else -10)
        + (if pan.nakshatraNumber ∈ rules.goodNakshatras then (15 : ℚ) else -10)
        + (if (pan.pythonWeekday + 1) % 7 ∈ rules.goodWeekdays then (10 : ℚ)
           else -5)
        + (if pan.yogaName ∈ rules.avoidYogas then (-15 : ℚ)
           else if pan.yogaNature = "Auspicious" then 10 else 0)
        + (if pan.masa ∈ rules.avoidLunarMonths then (-10 : ℚ) else 0) := by
  unfold day_score
  split_ifs <;> simp_all <;> ring

/-- C6 counterexample: a requested span of 90 days and one hour exceeds 90
days, yet the route accepts it and returns the search result — the check is
`delta.days > 90`, and `timedelta.days` floors the span to 90. -/
theorem search_range_over_90_days_accepted :
    search_muhurat_validate 0 (90 * 86400 + 3600) [] = Except.ok [] ∧
    (90 * 86400 + 3600 : ℤ) - 0 > 90 * 86400 := by
  constructor
  · rfl
  · decide

/-- C6 amended: the search-range validation returns the window list exactly
when start ≤ end and the span is under 91 whole days, and fails with the
invalid-range error exactly when end < start or the span is at least 91
days (91 × 86400 seconds); spans that exceed 90 days by less than a day are
accepted. -/
theorem search_range_validation (s e : ℤ) (res : List MuhuratWindow) :
    (search_muhurat_validate s e res = Except.ok res ↔
      s ≤ e ∧ e - s < 91 * 86400) ∧
    ((∃ msg, search_muhurat_validate s e res = Except.error msg) ↔
      e < s ∨ 91 * 86400 ≤ e - s) := by
  simp only [search_muhurat_validate]
  split_ifs with h1 h2 <;>
    simp only [reduceCtorEq, false_iff, not_and, not_lt, exists_eq',
      true_iff, false_or, Except.ok.injEq, iff_true, exists_false,
      Except.error.injEq, exists_eq_left] <;>
    omega

lemma mem_insertBlock {x y : ℚ × ℚ × String} :
    ∀ {l : List (ℚ × ℚ × String)}, y ∈ insertBlock x l ↔ y = x ∨ y ∈ l := by
  intro l
  induction l with
  | nil => simp [insertBlock]
  | cons z zs ih =>
    rw [insertBlock]
    split_ifs
    · simp [List.mem_cons]
    · simp only [List.mem_cons, ih]
      tauto

lemma mem_sortBlocks {y : ℚ × ℚ × String} :
    ∀ {l : List (ℚ × ℚ × String)}, y ∈ sortBlocks l ↔ y ∈ l := by
  intro l
  induction l with
  | nil => simp [sortBlocks]
  | cons z zs ih =>
    rw [sortBlocks, mem_insertBlock]
    simp [ih]

lemma insertBlock_ne_nil (x : ℚ × ℚ × String) (l : List (ℚ × ℚ × String)) :
    insertBlock x l ≠ [] := by
  cases l with
  | nil => simp [insertBlock]
  | cons y ys =>
    rw [insertBlock]
    split_ifs <;> simp

lemma insertBlock_pairwise {x : ℚ × ℚ × String}
    {l : List (ℚ × ℚ × String)}
    (h : l.Pairwise (fun a b => a.1 ≤ b.1)) :
    (insertBlock x l).Pairwise (fun a b => a.1 ≤ b.1) := by
  induction l with
  | nil => simp [insertBlock]
  | cons y ys ih =>
    rw [insertBlock]
    rw [List.pairwise_cons] at h
    split_ifs with hle
    · rw [List.pairwise_cons]
      refine ⟨?_, List.pairwise_cons.mpr h⟩
      intro z hz
      rcases List.mem_cons.mp hz with rfl | hz
      · exact hle
      · exact le_trans hle (h.1 z hz)
    · rw [List.pairwise_cons]
      refine ⟨?_, ih h.2⟩
      intro z hz
      rcases mem_insertBlock.mp hz with rfl | hz
      · exact le_of_not_le hle
      · exact h.1 z hz

lemma sortBlocks_pairwise (l : List (ℚ × ℚ × String)) :
    (sortBlocks l).Pairwise (fun a b => a.1 ≤ b.1) := by
  induction l with
  | nil => simp [sortBlocks]
  | cons x xs ih => exact insertBlock_pairwise ih

lemma findClearGo_start_le (d : ℚ) :
    ∀ (bs : List (ℚ × ℚ × String)) (c : ℚ) (w : ℚ × ℚ),
      w ∈ findClearGo c d bs → c ≤ w.1 := by
  intro bs
  induction bs with
  | nil =>
    intro c w hw
    rw [findClearGo] at hw
    split_ifs at hw with h
    · rcases List.mem_singleton.mp hw with rfl
      exact le_refl _
    · simp at hw
  | cons b bs ih =>
    intro c w hw
    rw [findClearGo] at hw
    rcases List.mem_append.mp hw with h | h
    · split_ifs at h with hc
      · rcases List.mem_singleton.mp h with rfl
        exact le_refl _
      · simp at h
    · exact le_trans (le_max_left _ _) (ih (max c b.2.1) w h)

lemma findClearGo_disjoint (d : ℚ) :
    ∀ (bs : List (ℚ × ℚ × String)) (c : ℚ),
      bs.Pairwise (fun a b => a.1 ≤ b.1) →
      ∀ w ∈ findClearGo c d bs, ∀ b ∈ bs, w.2 ≤ b.1 ∨ b.2.1 ≤ w.1 := by
  intro bs
  induction bs with
  | nil => intro c _ w _ b hb; simp at hb
  | cons b0 bs ih =>
    intro c hp w hw b hb
    rw [findClearGo] at hw
    rw [List.pairwise_cons] at hp
    rcases List.mem_append.mp hw with h | h
    · split_ifs at h with hc
      · rcases List.mem_singleton.mp h with rfl
        rcases List.mem_cons.mp hb with rfl | hb
        · left; exact le_refl _
        · left; exact hp.1 b hb
      · simp at h
    · rcases List.mem_cons.mp hb with rfl | hb
      · right
        exact le_trans (le_max_right _ _)
          (findClearGo_start_le d bs (max c b.2.1) w h)
      · exact ih (max c b0.2.1) hp.2 w h b hb

lemma find_clear_windows_disjoint (ds de : ℚ)
    (blocks : List (ℚ × ℚ × String)) (hne : blocks ≠ [])
    (hp : blocks.Pairwise (fun a b => a.1 ≤ b.1)) :
    ∀ w ∈ find_clear_windows ds de blocks, ∀ b ∈ blocks,
      w.2 ≤ b.1 ∨ b.2.1 ≤ w.1 := by
  unfold find_clear_windows
  rw [if_neg hne]
  exact findClearGo_disjoint de blocks ds hp

/-- C5: with the default filters (avoid Rahu Kalam and Yamagandam true;
Gulika Kalam is always avoided), every window `_evaluate_day` emits — for any
day the ephemeris describes and any event rules, hence in particular for
every day of a marriage search over 2026-03-01..2026-03-31 — has quality
different from poor, spans at least 30 minutes (shorter clear sub-intervals
are discarded), and is disjoint from all three of the day's inauspicious
intervals. -/
theorem evaluate_day_windows_safe (pan : PanchangLite) (rules : EventRules)
    (excludeNakshatras excludeTithis : List ℕ) (w : MuhuratWindow)
    (hw : w ∈ evaluate_day pan rules true true excludeNakshatras excludeTithis) :
    w.quality ≠ MuhuratQuality.poor ∧
    1800 ≤ w.endTime - w.startTime ∧
    (w.endTime ≤ pan.rahuKalam.1 ∨ pan.rahuKalam.2 ≤ w.startTime) ∧
    (w.endTime ≤ pan.yamagandam.1 ∨ pan.yamagandam.2 ≤ w.startTime) ∧
    (w.endTime ≤ pan.gulikaKalam.1 ∨ pan.gulikaKalam.2 ≤ w.startTime) := by
  unfold evaluate_day at hw
  simp only [reduceIte] at hw
  split_ifs at hw with h1 h2
  · simp at hw
  · simp at hw
  · rw [List.mem_filterMap] at hw
    obtain ⟨cw, hcw, hfw⟩ := hw
    simp only [List.singleton_append, List.cons_append, List.nil_append] at hcw
    have hne : sortBlocks
        [(pan.rahuKalam.1, pan.rahuKalam.2, "Rahu Kalam"),
         (pan.yamagandam.1, pan.yamagandam.2, "Yamagandam"),
         (pan.gulikaKalam.1, pan.gulikaKalam.2, "Gulika Kalam")] ≠ [] := by
      rw [sortBlocks]
      exact insertBlock_ne_nil _ _
    have hdis : ∀ b ∈ sortBlocks
        [(pan.rahuKalam.1, pan.rahuKalam.2, "Rahu Kalam"),
         (pan.yamagandam.1, pan.yamagandam.2, "Yamagandam"),
         (pan.gulikaKalam.1, pan.gulikaKalam.2, "Gulika Kalam")],
        cw.2 ≤ b.1 ∨ b.2.1 ≤ cw.1 := fun b hb =>
      find_clear_windows_disjoint pan.sunrise pan.sunset _ hne
        (sortBlocks_pairwise _) cw hcw b hb
    have hrahu : cw.2 ≤ pan.rahuKalam.1 ∨ pan.rahuKalam.2 ≤ cw.1 :=
      hdis (pan.rahuKalam.1, pan.rahuKalam.2, "Rahu Kalam")
        (mem_sortBlocks.mpr (by simp))
    have hyama : cw.2 ≤ pan.yamagandam.1 ∨ pan.yamagandam.2 ≤ cw.1 :=
      hdis (pan.yamagandam.1, pan.yamagandam.2, "Yamagandam")
        (mem_sortBlocks.mpr (by simp))
    have hguli : cw.2 ≤ pan.gulikaKalam.1 ∨ pan.gulikaKalam.2 ≤ cw.1 :=
      hdis (pan.gulikaKalam.1, pan.gulikaKalam.2, "Gulika Kalam")
        (mem_sortBlocks.mpr (by simp))
    by_cases hlen : cw.2 - cw.1 < 1800
    · rw [if_pos hlen] at hfw
      simp at hfw
    · rw [if_neg hlen] at hfw
      split_ifs at hfw
      all_goals try simp at hfw
      all_goals try subst hfw
      all_goals try exact absurd rfl ‹¬MuhuratQuality.poor = MuhuratQuality.poor›
      all_goals dsimp only
      all_goals refine ⟨by simp, le_of_not_lt hlen, hrahu, hyama, hguli⟩

/-- The first clear window `_evaluate_day` emits for `panSaturday` with the
marriage rules and default filters. -/
def firstSaturdayWindow : MuhuratWindow :=
  { startTime := 0, endTime := 3600, quality := MuhuratQuality.moderate,
    score := 57, tithi := "Dwitiya", nakshatra := "Ashwini", yoga := "Priti",
    karana := "Balava", weekday := "Shanivara" }

lemma evaluate_day_panSaturday :
    evaluate_day panSaturday MARRIAGE_RULES true true [] [] =
      [firstSaturdayWindow,
       { startTime := 5400, endTime := 7200, quality := MuhuratQuality.moderate,
         score := 56, tithi := "Dwitiya", nakshatra := "Ashwini",
         yoga := "Priti", karana := "Balava", weekday := "Shanivara" },
       { startTime := 9000, endTime := 10800, quality := MuhuratQuality.moderate,
         score := 56, tithi := "Dwitiya", nakshatra := "Ashwini",
         yoga := "Priti", karana := "Balava", weekday := "Shanivara" },
       { startTime := 12600, endTime := 14400, quality := MuhuratQuality.moderate,
         score := 56, tithi := "Dwitiya", nakshatra := "Ashwini",
         yoga := "Priti", karana := "Balava", weekday := "Shanivara" }] := by
  simp [evaluate_day, day_score, MARRIAGE_RULES, panSaturday,
    firstSaturdayWindow, sortBlocks, insertBlock, find_clear_windows,
    findClearGo, max_def, List.filterMap]
  norm_num [max_def]
  simp

/-- Witness for `evaluate_day_windows_safe` at the first window of
`panSaturday`. -/
theorem evaluate_day_windows_safe_witness :
    firstSaturdayWindow.quality ≠ MuhuratQuality.poor ∧
    1800 ≤ firstSaturdayWindow.endTime - firstSaturdayWindow.startTime ∧
    (firstSaturdayWindow.endTime ≤ panSaturday.rahuKalam.1 ∨
      panSaturday.rahuKalam.2 ≤ firstSaturdayWindow.startTime) ∧
    (firstSaturdayWindow.endTime ≤ panSaturday.yamagandam.1 ∨
      panSaturday.yamagandam.2 ≤ firstSaturdayWindow.startTime) ∧
    (firstSaturdayWindow.endTime ≤ panSaturday.gulikaKalam.1 ∨
      panSaturday.gulikaKalam.2 ≤ firstSaturdayWindow.startTime) :=
  evaluate_day_windows_safe panSaturday MARRIAGE_RULES [] [] firstSaturdayWindow
    (by rw [evaluate_day_panSaturday]; exact List.mem_cons_self _ _)

/-- A highly favourable day: Monday (vedic weekday 1), lunar day 2, mansion 3,
auspicious non-avoided luni-solar angle — day score 95 for marriage. -/
def panMonday : PanchangLite :=
  { pythonWeekday := 0, tithiNumber := 2, tithiName := "Dwitiya",
    nakshatraNumber := 3, nakshatraName := "Krittika", yogaName := "Priti",
    yogaNature := "Auspicious", karanaName := "Balava", vaara := "Somavara",
    masa := "Chaitra", sunrise := 0, sunset := 14400,
    rahuKalam := (3600, 5400), yamagandam := (7200, 9000),
    gulikaKalam := (10800, 12600) }

/-- The first clear window of `panMonday` (score 97, excellent). -/
def firstMondayWindow : MuhuratWindow :=
  { startTime := 0, endTime := 3600, quality := MuhuratQuality.excellent,
    score := 97, tithi := "Dwitiya", nakshatra := "Krittika", yoga := "Priti",
    karana := "Balava", weekday := "Somavara" }

lemma evaluate_day_panMonday :
    evaluate_day panMonday MARRIAGE_RULES true true [] [] =
      [firstMondayWindow,
       { startTime := 5400, endTime := 7200, quality := MuhuratQuality.excellent,
         score := 96, tithi := "Dwitiya", nakshatra := "Krittika",
         yoga := "Priti", karana := "Balava", weekday := "Somavara" },
       { startTime := 9000, endTime := 10800,
         quality := MuhuratQuality.excellent, score := 96, tithi := "Dwitiya",
         nakshatra := "Krittika", yoga := "Priti", karana := "Balava",
         weekday := "Somavara" },
       { startTime := 12600, endTime := 14400,
         quality := MuhuratQuality.excellent, score := 96, tithi := "Dwitiya",
         nakshatra := "Krittika", yoga := "Priti", karana := "Balava",
         weekday := "Somavara" }] := by
  simp [evaluate_day, day_score, MARRIAGE_RULES, panMonday,
    firstMondayWindow, sortBlocks, insertBlock, find_clear_windows,
    findClearGo, max_def, List.filterMap]
  norm_num [max_def]
  simp

/-- A two-day range: an ordinary Saturday followed by a highly favourable
Monday-quality day. -/
def panOf2 : ℕ → PanchangLite := fun d => if d = 0 then panSaturday else panMonday

lemma find_muhurat_panOf2 :
    find_muhurat panOf2 MARRIAGE_RULES 2 1 true true [] [] =
      [firstSaturdayWindow] := by
  unfold find_muhurat
  rw [show (2 : ℕ) = 1 + 1 from rfl, find_muhurat_loop]
  rw [if_pos (by simp)]
  rw [show panOf2 0 = panSaturday from rfl]
  rw [show (1 : ℕ) = 0 + 1 from rfl, find_muhurat_loop]
  rw [if_neg (by rw [evaluate_day_panSaturday]; simp)]
  rw [evaluate_day_panSaturday]
  norm_num [sortByScoreDesc, insertByScoreDesc, firstSaturdayWindow]

/-- C10: the day loop of `find_muhurat` stops as soon as the collected
windows reach 3 × max_results — any state at or past that threshold is
returned unchanged, so later days are never evaluated.  Consequently the
returned top-max_results list need not be the global optimum: over the
two-day range `panOf2` with max_results = 1, the search returns only the
score-57 window of the mediocre first day, while the never-evaluated second
day holds a score-97 window that beats everything returned. -/
theorem find_muhurat_early_stop :
    (∀ (panOf : ℕ → PanchangLite) (rules : EventRules) (maxResults : ℕ)
       (ar ay : Bool) (en et : List ℕ) (day fuel : ℕ)
       (acc : List MuhuratWindow), maxResults * 3 ≤ acc.length →
       find_muhurat_loop panOf rules maxResults ar ay en et day fuel acc = acc) ∧
    find_muhurat panOf2 MARRIAGE_RULES 2 1 true true [] [] =
      [firstSaturdayWindow] ∧
    firstMondayWindow ∈ evaluate_day (panOf2 1) MARRIAGE_RULES true true [] [] ∧
    (∀ v ∈ find_muhurat panOf2 MARRIAGE_RULES 2 1 true true [] [],
       v.score < firstMondayWindow.score) ∧
    firstMondayWindow ∉ find_muhurat panOf2 MARRIAGE_RULES 2 1 true true [] [] := by
  refine ⟨?_, find_muhurat_panOf2, ?_, ?_, ?_⟩
  · intro panOf rules maxResults ar ay en et day fuel acc hacc
    cases fuel with
    | zero => rfl
    | succ n =>
      rw [find_muhurat_loop, if_neg (by omega)]
  · rw [show panOf2 1 = panMonday from rfl, evaluate_day_panMonday]
    exact List.mem_cons_self _ _
  · rw [find_muhurat_panOf2]
    intro v hv
    rcases List.mem_singleton.mp hv with rfl
    norm_num [firstSaturdayWindow, firstMondayWindow]
  · rw [find_muhurat_panOf2]
    intro hmem
    rcases List.mem_singleton.mp hmem with h
    simp [firstSaturdayWindow, firstMondayWindow] at h

/-- Witness for `find_muhurat_early_stop`: with max_results = 1 and a
collected list already holding 3 windows, the loop returns it unchanged
without evaluating any further day. -/
theorem find_muhurat_early_stop_witness :
    find_muhurat_loop panOf2 MARRIAGE_RULES 1 true true [] [] 5 7
      [firstSaturdayWindow, firstSaturdayWindow, firstSaturdayWindow] =
      [firstSaturdayWindow, firstSaturdayWindow, firstSaturdayWindow] :=
  find_muhurat_early_stop.1 panOf2 MARRIAGE_RULES 1 true true [] [] 5 7
    [firstSaturdayWindow, firstSaturdayWindow, firstSaturdayWindow]
    (by norm_num)
